import Mathlib

/-!
Verification development for the newapi Instagram tracking service.

The definitions below are a shallow embedding of the JavaScript sources:
  - src/services/queue.js      (first module copy, lines 1-277): job queue,
    rate-limit backoff, dispatch;
  - src/services/tracking.js   (first module copy, lines 1-1051): trackProfile
    pipeline: baseline snapshot selection, delta write, daily metrics roll-up,
    tracking-id resolution;
  - src/routes/profiles.js     GET /tracking/:tracking_id session-scoped read;
  - src/README.md lines 105-364: the CookieManager class (cookie rotation),
    whose source is appended after the markdown body, the same concatenation
    pattern as the doubled queue.js and tracking.js modules.

Machine integers are modelled as Int (JavaScript numbers hold exact integers in
the ranges used here); wall-clock times are Int milliseconds or seconds as
noted; calendar dates are Int day indices. JavaScript truthiness of numbers
(0 is falsy) is modelled explicitly by jsOr / jsOrO.
-/

namespace NewApi

/-- jsOr models the JavaScript expression a || b for number values: 0 is the
only falsy integer, so a || b yields b exactly when a = 0. -/
def jsOr (a b : Int) : Int := if a = 0 then b else a

/-- jsOrO models the JavaScript expression x?.f || b: a missing row (none)
and a stored 0 both fall through to b. -/
def jsOrO (a : Option Int) (b : Int) : Int :=
  match a with
  | none => b
  | some v => if v = 0 then b else v

/-- insertLe inserts x into a list so that existing elements y with le y x stay
in front; used by sortLe. -/
def insertLe (le : α → α → Bool) (x : α) : List α → List α
  | [] => [x]
  | y :: ys => if le y x then y :: insertLe le x ys else x :: y :: ys

/-- sortLe is a structural insertion sort; it models the JavaScript
Array.prototype.sort and the SQL order-by clauses used by the sources. -/
def sortLe (le : α → α → Bool) : List α → List α
  | [] => []
  | x :: xs => insertLe le x (sortLe le xs)

/-- listHasPrefixB pat l is true when pat is an initial segment of l. -/
def listHasPrefixB [DecidableEq α] : List α → List α → Bool
  | [], _ => true
  | _ :: _, [] => false
  | a :: as, b :: bs => a = b && listHasPrefixB as bs

/-- listHasSub pat l is true when pat occurs as a contiguous segment of l. -/
def listHasSub [DecidableEq α] (pat : List α) : List α → Bool
  | [] => listHasPrefixB pat []
  | b :: bs => listHasPrefixB pat (b :: bs) || listHasSub pat bs

/-- lowerString models String.prototype.toLowerCase for the ASCII messages
that the queue inspects. -/
def lowerString (s : String) : String := String.mk (s.data.map Char.toLower)

/-- strHasSub text pat models text.includes(pat). -/
def strHasSub (text pat : String) : Bool := listHasSub pat.data text.data

/-! ## Queue (src/services/queue.js, first module copy)

Timers (setTimeout, setImmediate) are not modelled; a call of processQueue is
modelled as one step given the outcome of trackProfile for the dispatched job.
Promises are modelled by job id in an association list. -/

/-- MIN_TIME_BETWEEN_JOBS default value (queue.js line 7): 300000 ms. -/
def MIN_TIME_BETWEEN_JOBS : Int := 300000

/-- MAX_BACKOFF_TIME (queue.js line 14): 30 minutes in ms. -/
def MAX_BACKOFF_TIME : Int := 1800000

/-- ONE_HOUR_MS, the window after which the consecutive-error counter is
reset (queue.js line 122). -/
def ONE_HOUR_MS : Int := 3600000

/-- PromiseState is the settlement state of the promise a caller of addJob
holds. -/
inductive PromiseState
  | pending
  | resolved
  | rejected (msg : String)
deriving DecidableEq

/-- Job mirrors the object built in addJob (queue.js lines 43-54); resolve and
reject are modelled through the promises association list of QueueState. -/
structure Job where
  id : String
  username : String
  customTrackingId : Option String
  userId : Option String
  addedAt : Int
  immediate : Bool
  completed : Bool
deriving DecidableEq

/-- QueueState bundles the module-level mutable state of queue.js
(jobQueue, isProcessing, lastJobTime, consecutiveRateLimitErrors,
lastRateLimitErrorTime) plus the settlement states of the job promises. -/
structure QueueState where
  jobs : List Job
  isProcessing : Bool
  lastJobTime : Int
  consecutiveRateLimitErrors : Nat
  lastRateLimitErrorTime : Int
  promises : List (String × PromiseState)
deriving DecidableEq

/-- TrackOutcome is the result of the awaited trackProfile call for the
dispatched job. -/
inductive TrackOutcome
  | success
  | failure (msg : String)
deriving DecidableEq

/-- newJobOf builds the job object pushed by addJob (queue.js lines 43-54);
the id is username-Date.now() as in line 44. -/
def newJobOf (username : String) (immediate : Bool)
    (customTrackingId userId : Option String) (now : Int) : Job :=
  { id := username ++ "-" ++ toString now
    username := username
    customTrackingId := customTrackingId
    userId := userId
    addedAt := now
    immediate := immediate
    completed := false }

/-- addJob (queue.js lines 28-73). If a non-completed job for the same
username is in the queue, its promise is returned and nothing is appended;
otherwise a fresh job with a fresh pending promise is appended. The returned
string is the id of the job whose promise the caller receives. The
setImmediate dispatcher kick (lines 64-70) is a timer and is not part of the
state transition. -/
def addJob (st : QueueState) (username : String) (immediate : Bool)
    (customTrackingId userId : Option String) (now : Int) :
    QueueState × String :=
  match st.jobs.find? (fun j => j.username == username && !j.completed) with
  | some existingJob => (st, existingJob.id)
  | none =>
    let job := newJobOf username immediate customTrackingId userId now
    ({ st with
        jobs := st.jobs ++ [job]
        promises := st.promises ++ [(job.id, PromiseState.pending)] },
      job.id)

/-- isRateLimitMessage (queue.js lines 179-183): the error message, lowered,
contains one of four markers. -/
def isRateLimitMessage (msg : String) : Bool :=
  let m := lowerString msg
  strHasSub m "rate limit" || strHasSub m "429" ||
    strHasSub m "too many requests" || strHasSub m "wait a few minutes"

/-- jobLE is the sort comparator of queue.js lines 92-96: immediate jobs
first, then ascending addedAt. -/
def jobLE (a b : Job) : Bool :=
  if a.immediate && !b.immediate then true
  else if !a.immediate && b.immediate then false
  else decide (a.addedAt ≤ b.addedAt)

/-- backoffBaseWait is the spacing computation of queue.js lines 109-128.
Given the configured base spacing, the consecutive rate-limit error counter
and the time of the most recent rate-limit error, it returns the required gap
(baseWaitTime) and the counter after the staleness check. Note the order in
the source: baseWaitTime takes the backoff BEFORE the one-hour staleness test,
and the else branch resets only the counter, not baseWaitTime. -/
def backoffBaseWait (minTime : Int) (consecutive : Nat)
    (lastRateLimitErrorTime now : Int) : Int × Nat :=
  if 0 < consecutive then
    let backoffTime := min (minTime * (2 : Int) ^ consecutive) MAX_BACKOFF_TIME
    let baseWaitTime := max minTime backoffTime
    if now - lastRateLimitErrorTime < ONE_HOUR_MS then
      (baseWaitTime, consecutive)
    else
      (baseWaitTime, 0)
  else (minTime, consecutive)

/-- setPromise settles the promise of the job with the given id. -/
def setPromise (ps : List (String × PromiseState)) (id : String)
    (v : PromiseState) : List (String × PromiseState) :=
  ps.map (fun p => if p.1 == id then (p.1, v) else p)

/-- lookupPromise reads the settlement state of a promise by job id. -/
def lookupPromise (ps : List (String × PromiseState)) (id : String) :
    Option PromiseState :=
  (ps.find? (fun p => p.1 == id)).map (fun p => p.2)

/-- finallyBlock is the finally block of processQueue (queue.js lines
213-227): it clears isProcessing and removes the dispatched job from the
queue by id. In JavaScript this block runs on EVERY exit of the try-catch,
including the early return of the rate-limit branch of the catch. The
setTimeout rescheduling is a timer and is not part of the state. -/
def finallyBlock (st : QueueState) (nextJob : Job) : QueueState :=
  { st with
      isProcessing := false
      jobs := st.jobs.filter (fun j => !(j.id == nextJob.id)) }

/-- processQueueStep is one invocation of processQueue (queue.js lines
78-228) in which the dispatched job (if any) finishes with the given outcome.
now stands for Date.now() during the invocation. -/
def processQueueStep (minTime : Int) (st : QueueState) (now : Int)
    (outcome : TrackOutcome) : QueueState :=
  if st.isProcessing then st
  else if st.jobs.isEmpty then st
  else
    -- lines 92-96: the queue is sorted in place
    let sorted := sortLe jobLE st.jobs
    match sorted.find? (fun j => !j.completed) with
    | none => { st with jobs := sorted }
    | some nextJob =>
      -- lines 107-130: spacing with exponential backoff
      let bw := backoffBaseWait minTime st.consecutiveRateLimitErrors
        st.lastRateLimitErrorTime now
      let baseWaitTime := bw.1
      -- line 108: timeSinceLastJob is Infinity when lastJobTime = 0, so the
      -- wait is 0 in that case
      let waitTime :=
        if 0 < st.lastJobTime then max 0 (baseWaitTime - (now - st.lastJobTime))
        else 0
      let st1 := { st with jobs := sorted, consecutiveRateLimitErrors := bw.2 }
      if 0 < waitTime && 0 < st.lastJobTime then
        -- lines 134-142: schedule a later retry; state keeps the sort and the
        -- possibly reset counter
        st1
      else
        -- lines 151-161: mark in flight, completed := true, lastJobTime := now
        let st2 := { st1 with
          isProcessing := true
          lastJobTime := now
          jobs := st1.jobs.map (fun (j : Job) =>
            if j.id == nextJob.id then { j with completed := true } else j) }
        match outcome with
        | TrackOutcome.success =>
          -- lines 166-176: reset counter, resolve the promise
          let st3 := { st2 with
            consecutiveRateLimitErrors := 0
            promises := setPromise st2.promises nextJob.id PromiseState.resolved }
          finallyBlock st3 nextJob
        | TrackOutcome.failure msg =>
          if isRateLimitMessage msg then
            -- lines 185-203: count the error, reset completed to false, do not
            -- settle the promise; the return still runs the finally block
            let st3 := { st2 with
              consecutiveRateLimitErrors := st2.consecutiveRateLimitErrors + 1
              lastRateLimitErrorTime := now
              jobs := st2.jobs.map (fun (j : Job) =>
                if j.id == nextJob.id then { j with completed := false } else j) }
            finallyBlock st3 nextJob
          else
            -- lines 204-212: reset counter, reject the promise
            let st3 := { st2 with
              consecutiveRateLimitErrors := 0
              promises := setPromise st2.promises nextJob.id
                (PromiseState.rejected msg) }
            finallyBlock st3 nextJob

/-! ## Tracking pipeline (src/services/tracking.js, first module copy) -/

/-- Snapshot mirrors a row of ig_profile_snapshots as used by the pipeline
and the routes; capturedAt is in seconds. -/
structure Snapshot where
  id : Nat
  profileId : Nat
  capturedAt : Int
  followers : Int
  following : Int
  mediaCount : Int
  clipsCount : Int
deriving DecidableEq

/-- DeltaRow mirrors a row of ig_profile_deltas; createdAt is set by the
database default at insert time. -/
structure DeltaRow where
  id : Nat
  profileId : Nat
  baseSnapshotId : Nat
  compareSnapshotId : Nat
  followersDiff : Int
  followingDiff : Int
  mediaDiff : Int
  clipsDiff : Int
  createdAt : Int
deriving DecidableEq

/-- DailyRow mirrors a row of ig_profile_daily_metrics; date is a day index,
createdAt the row creation time in seconds. -/
structure DailyRow where
  profileId : Nat
  date : Int
  followersOpen : Int
  followersClose : Int
  followersDelta : Int
  followingOpen : Int
  followingClose : Int
  followingDelta : Int
  mediaOpen : Int
  mediaClose : Int
  mediaDelta : Int
  postsDelta : Int
  clipsOpen : Int
  clipsClose : Int
  clipsDelta : Int
  viewsDelta : Int
  likesDelta : Int
  commentsDelta : Int
  createdAt : Int
deriving DecidableEq

/-- snapDescLE orders snapshots by capturedAt descending, as in the query
order("captured_at", ascending false) (tracking.js line 327). -/
def snapDescLE (a b : Snapshot) : Bool := decide (b.capturedAt ≤ a.capturedAt)

/-- getRecentTwoSnapshots models the query of tracking.js lines 323-328:
snapshots of the profile, captured_at descending, limit 2. -/
def getRecentTwoSnapshots (table : List Snapshot) (pid : Nat) : List Snapshot :=
  (sortLe snapDescLE (table.filter (fun s => s.profileId == pid))).take 2

/-- selectBaseline is the baseline-snapshot choice of tracking.js lines
306-356: with a caller-supplied tracking id the baseline is null (start
fresh); otherwise the second most recent snapshot when two exist, the only
one when one exists, null when none exist. -/
def selectBaseline (customTrackingId : Option String) (table : List Snapshot)
    (pid : Nat) : Option Snapshot :=
  if customTrackingId.isSome then none
  else
    -- lines 344-356: length >= 2 gives allSnapshots[1], length = 1 gives
    -- allSnapshots[0], else null
    match getRecentTwoSnapshots table pid with
    | _ :: b :: _ => some b
    | [a] => some a
    | [] => none

/-- computeDelta builds the ig_profile_deltas row inserted in tracking.js
lines 435-466; now is the database insert time. -/
def computeDelta (deltaId : Nat) (pid : Nat) (lastSnapshot newSnapshot : Snapshot)
    (now : Int) : DeltaRow :=
  { id := deltaId
    profileId := pid
    baseSnapshotId := lastSnapshot.id
    compareSnapshotId := newSnapshot.id
    followersDiff := newSnapshot.followers - lastSnapshot.followers
    followingDiff := newSnapshot.following - lastSnapshot.following
    mediaDiff := newSnapshot.mediaCount - lastSnapshot.mediaCount
    clipsDiff := newSnapshot.clipsCount - lastSnapshot.clipsCount
    createdAt := now }

/-- deltaRowWritten models tracking.js lines 428-481: a delta row is inserted
exactly when a baseline snapshot exists, zero differences included. -/
def deltaRowWritten (deltaId : Nat) (pid : Nat) (baseline : Option Snapshot)
    (newSnapshot : Snapshot) (now : Int) : Option DeltaRow :=
  match baseline with
  | some lastSnapshot => some (computeDelta deltaId pid lastSnapshot newSnapshot now)
  | none => none

/-- PipelineEnv records, for one trackProfile run, whether each fallible step
succeeds, plus the identifiers of the rows the run would return. The flags
correspond to: step 1 fetchInstagramProfileData (line 19), step 2 profile
upsert (lines 30-296), step 3 previous-snapshot query (lines 323-362, errors
only logged), step 4 snapshot insert (lines 390-409), step 5 last_snapshot_id
update (lines 414-423, errors only logged), step 6 delta insert (lines
458-471), step 7 reel enumeration (lines 488-506, falls back), steps 8-9
per-reel fetch and persistence (lines 554-862, continue on failure), step 10
daily metrics write (lines 875-1026, errors only logged). hasBaseline is
whether lastSnapshot is non-null. -/
structure PipelineEnv where
  fetchOk : Bool
  profileOk : Bool
  snapshotsFetchOk : Bool
  snapshotInsertOk : Bool
  lastSnapshotIdOk : Bool
  hasBaseline : Bool
  deltaInsertOk : Bool
  enumerationOk : Bool
  reelPersistOk : Bool
  dailyOk : Bool
  profileId : Nat
  snapshotId : Nat
deriving DecidableEq

/-- trackProfileResult is the control flow of trackProfile (tracking.js
lines 11-1049): which step failures throw (abort the run) and which are only
logged. On completion the run returns the profile and the new snapshot
(line 1044). -/
def trackProfileResult (env : PipelineEnv) : Except String (Nat × Nat) :=
  if !env.fetchOk then Except.error "Failed to fetch Instagram data"
  else if !env.profileOk then Except.error "Profile upsert failed"
  -- step 3 errors are only logged (lines 360-362)
  else if !env.snapshotInsertOk then Except.error "Snapshot insert failed"
  -- step 5 errors are only logged (lines 419-423)
  else if env.hasBaseline && !env.deltaInsertOk then
    Except.error "Delta insert failed"
  -- step 7 falls back to the profile-embedded media list (lines 491-506)
  -- steps 8-9 continue past per-reel failures (lines 564-626, 790-793)
  -- step 10 errors are only logged (lines 927-932, 1019-1025)
  else Except.ok (env.profileId, env.snapshotId)

/-! ## Tracking id resolution (tracking.js lines 6-9 and 33-101) -/

/-- ProfileRow mirrors a row of ig_profiles as used by tracking-id
resolution. -/
structure ProfileRow where
  id : Nat
  username : String
  trackingId : String
  userId : Option String
deriving DecidableEq

/-- findByTrackingId models the query select from ig_profiles where
tracking_id equals the given id, maybeSingle (tracking.js lines 47-51). -/
def findByTrackingId (table : List ProfileRow) (tid : String) : Option ProfileRow :=
  (table.filter (fun r => r.trackingId == tid)).head?

/-- hexDigit maps 0-15 to the lowercase hexadecimal digits, as in the node
Buffer toString hex encoding. -/
def hexDigit (n : Nat) : Char :=
  if n < 10 then Char.ofNat (48 + n) else Char.ofNat (87 + n)

/-- byteToHex encodes one byte as two hexadecimal characters. -/
def byteToHex (b : Nat) : List Char := [hexDigit (b / 16 % 16), hexDigit (b % 16)]

/-- generateTrackingId models tracking.js lines 7-9:
crypto.randomBytes(8).toString(hex). The eight random bytes are passed in as
the entropy source. -/
def generateTrackingId (randomBytes : List Nat) : String :=
  String.mk ((randomBytes.map byteToHex).flatten)

/-- isHexChar recognises the characters the hex encoding can produce. -/
def isHexChar (c : Char) : Bool :=
  ("0123456789abcdef".data).contains c

/-- chooseTrackingId is tracking.js lines 33-57 for the case of a
caller-supplied tracking id: if a profile row already holds that tracking id
under a DIFFERENT username, the supplied id is discarded and the freshly
generated one is used; otherwise the supplied id is kept. -/
def chooseTrackingId (table : List ProfileRow) (customTrackingId : String)
    (scrapedUsername : String) (freshId : String) : String :=
  match findByTrackingId table customTrackingId with
  | some existingProfile =>
    if existingProfile.username ≠ scrapedUsername then freshId
    else customTrackingId
  | none => customTrackingId

/-- updateByTrackingId models the update of tracking.js lines 94-99: every
row whose tracking_id equals customTrackingId receives the profileData
payload, here its username and tracking_id fields. profileData.tracking_id is
the chosen id (line 78). -/
def updateByTrackingId (table : List ProfileRow) (customTrackingId : String)
    (scrapedUsername chosenId : String) : List ProfileRow :=
  table.map (fun (r : ProfileRow) =>
    if r.trackingId == customTrackingId then
      { r with username := scrapedUsername, trackingId := chosenId }
    else r)

/-! ## Daily metrics roll-up (tracking.js lines 875-1026) -/

/-- dailyUpdatePayload is the update of tracking.js lines 891-925 applied to
the existing row for today: open values are kept, close values are set to the
current snapshot, delta values are close minus open with the JavaScript ||
fallbacks of lines 903-905, and the reel aggregates are the running totals of
this run. -/
def dailyUpdatePayload (dailyRow : DailyRow) (newSnapshot : Snapshot)
    (totalDailyViewsGrowth totalDailyLikesGrowth totalDailyCommentsGrowth : Int) :
    DailyRow :=
  let dailyDelta := newSnapshot.followers - dailyRow.followersOpen
  let followingDelta := jsOr newSnapshot.following 0 -
    jsOr dailyRow.followingOpen (jsOr newSnapshot.following 0)
  let mediaDelta := jsOr newSnapshot.mediaCount 0 -
    jsOr dailyRow.mediaOpen (jsOr newSnapshot.mediaCount 0)
  let clipsDelta := jsOr newSnapshot.clipsCount 0 -
    jsOr dailyRow.clipsOpen (jsOr newSnapshot.clipsCount 0)
  { dailyRow with
      followersClose := newSnapshot.followers
      followersDelta := dailyDelta
      followingClose := jsOr newSnapshot.following 0
      followingDelta := followingDelta
      mediaClose := jsOr newSnapshot.mediaCount 0
      mediaDelta := mediaDelta
      postsDelta := mediaDelta
      clipsClose := jsOr newSnapshot.clipsCount 0
      clipsDelta := clipsDelta
      viewsDelta := totalDailyViewsGrowth
      likesDelta := totalDailyLikesGrowth
      commentsDelta := totalDailyCommentsGrowth }

/-- updateDailyMetricsToday is the update statement of tracking.js lines
908-925: it carries eq(profile_id) and eq(date, today), so exactly the rows
matching both receive the payload. -/
def updateDailyMetricsToday (table : List DailyRow) (pid : Nat) (today : Int)
    (newSnapshot : Snapshot) (tv tl tc : Int) : List DailyRow :=
  table.map (fun (r : DailyRow) =>
    if r.profileId == pid && r.date == today then
      dailyUpdatePayload r newSnapshot tv tl tc
    else r)

/-- fetchYesterdayRow models the query of tracking.js lines 953-959: the
daily row with date = yesterday and date >= trackingStartDate for this
profile. -/
def fetchYesterdayRow (table : List DailyRow) (pid : Nat)
    (yesterday trackingStartDate : Int) : Option DailyRow :=
  (table.filter (fun r =>
    r.profileId == pid && r.date == yesterday &&
      decide (trackingStartDate ≤ r.date))).head?

/-- dailyInsertRow is the insert branch of tracking.js lines 933-1017, run
when no daily row exists for today. isFirstTracking is line 940; the
yesterday row is consulted only when this is not the first tracking; open
values fall back to the current snapshot values (0 is falsy). now is the
database row creation time. -/
def dailyInsertRow (table : List DailyRow) (pid : Nat)
    (today trackingStartDate yesterday : Int) (hasLastSnapshot : Bool)
    (newSnapshot : Snapshot) (tv tl tc : Int) (now : Int) : DailyRow :=
  let isFirstTracking := today == trackingStartDate || !hasLastSnapshot
  let yesterdayRow :=
    if isFirstTracking then none
    else fetchYesterdayRow table pid yesterday trackingStartDate
  let todayOpen :=
    match yesterdayRow with
    | some y => y.followersClose
    | none => newSnapshot.followers
  let todayDelta :=
    match yesterdayRow with
    | some y => newSnapshot.followers - y.followersClose
    | none => 0
  let followingOpen := jsOrO (yesterdayRow.map (fun y => y.followingClose))
    (jsOr newSnapshot.following 0)
  let followingClose := jsOr newSnapshot.following 0
  let mediaOpen := jsOrO (yesterdayRow.map (fun y => y.mediaClose))
    (jsOr newSnapshot.mediaCount 0)
  let mediaClose := jsOr newSnapshot.mediaCount 0
  let clipsOpen := jsOrO (yesterdayRow.map (fun y => y.clipsClose))
    (jsOr newSnapshot.clipsCount 0)
  let clipsClose := jsOr newSnapshot.clipsCount 0
  { profileId := pid
    date := today
    followersOpen := todayOpen
    followersClose := newSnapshot.followers
    followersDelta := todayDelta
    followingOpen := followingOpen
    followingClose := followingClose
    followingDelta := followingClose - followingOpen
    mediaOpen := mediaOpen
    mediaClose := mediaClose
    mediaDelta := mediaClose - mediaOpen
    postsDelta := mediaClose - mediaOpen
    clipsOpen := clipsOpen
    clipsClose := clipsClose
    clipsDelta := clipsClose - clipsOpen
    viewsDelta := tv
    likesDelta := tl
    commentsDelta := tc
    createdAt := now }

/-- latestKnownCloseSpec follows the words of the specification only (for
comparison with the code): the followers close value of the most recent daily
row of the profile. -/
def latestKnownCloseSpec (table : List DailyRow) (pid : Nat) : Option Int :=
  ((sortLe (fun (a b : DailyRow) => decide (b.date ≤ a.date))
    (table.filter (fun r => r.profileId == pid))).head?).map
    (fun r => r.followersClose)

/-! ## Session-scoped read (src/routes/profiles.js lines 202-336) -/

/-- dateOf maps a time in seconds to its UTC day index, as splitting the ISO
string at T does. -/
def dateOf (t : Int) : Int := t / 86400

/-- SessionReadResult is the data assembled by GET /tracking/:tracking_id. -/
structure SessionReadResult where
  snapshot : Option Snapshot
  delta : Option DeltaRow
  daily : Option DailyRow
deriving DecidableEq

/-- deltaDescLE orders delta rows by createdAt descending. -/
def deltaDescLE (a b : DeltaRow) : Bool := decide (b.createdAt ≤ a.createdAt)

/-- dailyDateDescLE orders daily rows by date descending. -/
def dailyDateDescLE (a b : DailyRow) : Bool := decide (b.date ≤ a.date)

/-- sessionSnapshotRead models profiles.js lines 265-279: the snapshots of
the profile with captured_at >= updated_at minus one second, captured_at
descending, limit 1. -/
def sessionSnapshotRead (profileUpdatedAt : Int) (pid : Nat)
    (snapshots : List Snapshot) : Option Snapshot :=
  (sortLe snapDescLE (snapshots.filter (fun s =>
    s.profileId == pid && decide (profileUpdatedAt - 1 ≤ s.capturedAt)))).head?

/-- sessionDeltaRead models profiles.js lines 289-298: the deltas of the
profile with created_at >= updated_at minus one second, created_at
descending, limit 1. -/
def sessionDeltaRead (profileUpdatedAt : Int) (pid : Nat)
    (deltas : List DeltaRow) : Option DeltaRow :=
  (sortLe deltaDescLE (deltas.filter (fun d =>
    d.profileId == pid && decide (profileUpdatedAt - 1 ≤ d.createdAt)))).head?

/-- sessionDailyRead models profiles.js lines 304-336: the daily row for
today when today is on or after the session start DATE, else the most recent
daily row with date >= the session start date. The filter is on the date
column only. -/
def sessionDailyRead (profileUpdatedAt : Int) (pid : Nat)
    (dailies : List DailyRow) (now : Int) : Option DailyRow :=
  let trackingStartDate := dateOf (profileUpdatedAt - 1)
  let today := dateOf now
  let todayMetrics :=
    if trackingStartDate ≤ today then
      (dailies.filter (fun r => r.profileId == pid && r.date == today)).head?
    else none
  match todayMetrics with
  | some r => some r
  | none => (sortLe dailyDateDescLE (dailies.filter (fun r =>
      r.profileId == pid && decide (trackingStartDate ≤ r.date)))).head?

/-- sessionRead models GET /tracking/:tracking_id (profiles.js lines
253-336): the session start is the profile updated_at minus one second
(lines 255-259); the three components are read as above. -/
def sessionRead (profileUpdatedAt : Int) (pid : Nat)
    (snapshots : List Snapshot) (deltas : List DeltaRow)
    (dailies : List DailyRow) (now : Int) : SessionReadResult :=
  { snapshot := sessionSnapshotRead profileUpdatedAt pid snapshots
    delta := sessionDeltaRead profileUpdatedAt pid deltas
    daily := sessionDailyRead profileUpdatedAt pid dailies now }

/-! ## Cookie rotation manager (src/README.md lines 105-364)

The CookieManager class source is embedded in the repository inside
src/README.md, appended after the markdown body. JavaScript Map objects are
modelled as association lists and the failed-cookie Set as a list of
indices. -/

/-- mapGetD models Map.prototype.get followed by a default, as in
(map.get(k) || 0). -/
def mapGetD (m : List (Nat × β)) (k : Nat) (d : β) : β :=
  ((m.find? (fun p => p.1 == k)).map (fun p => p.2)).getD d

/-- mapSet models Map.prototype.set: the value of an existing key is
replaced in place, a new key is appended. -/
def mapSet (m : List (Nat × β)) (k : Nat) (v : β) : List (Nat × β) :=
  match m with
  | [] => [(k, v)]
  | p :: rest => if p.1 == k then (k, v) :: rest else p :: mapSet rest k v

/-- setAdd models Set.prototype.add. -/
def setAdd (s : List Nat) (k : Nat) : List Nat :=
  if s.contains k then s else s ++ [k]

/-- CookieManagerState is the mutable state of the CookieManager class
(README.md lines 120-131): cookie list, current index, failed set, failure
count and failure time maps, last switch time, and the configured switch
delay (60000 ms in the constructor). -/
structure CookieManagerState where
  cookies : List String
  currentIndex : Nat
  failedCookies : List Nat
  cookieFailureCount : List (Nat × Nat)
  cookieFailureTime : List (Nat × Int)
  lastSwitchTime : Int
  switchDelay : Int
deriving DecidableEq

/-- switchStopOffset is the number of iterations the do-while loop of
switchToNextCookie performs: the first offset a in 1..length-1 for which the
index (previous + a) mod length is not in the failed set, or length when all
probed indices are failed (the loop then exits because attempts reached
maxAttempts). -/
def switchStopOffset (failed : List Nat) (n prev : Nat) : Nat :=
  match ((List.range (n - 1)).map (fun a => a + 1)).find?
      (fun a => !(failed.contains ((prev + a) % n))) with
  | some a => a
  | none => n

/-- switchToNextCookie (README.md lines 240-268): with at most one cookie
nothing happens; otherwise the do-while loop advances the index cyclically
past failed cookies; when attempts reaches the cookie count (all cookies
failed) the failed set and EVERY failure count are cleared and the index
reset to 0; lastSwitchTime is updated exactly when the index changed, and
whether it changed is returned. -/
def switchToNextCookie (st : CookieManagerState) (now : Int) :
    CookieManagerState × Bool :=
  if st.cookies.length ≤ 1 then (st, false)
  else
    let n := st.cookies.length
    let previousIndex := st.currentIndex
    let attempts := switchStopOffset st.failedCookies n previousIndex
    let afterLoop :=
      if n ≤ attempts then
        -- lines 253-259: all cookies failed, reset and try again
        { st with failedCookies := [], cookieFailureCount := [],
                  currentIndex := 0 }
      else { st with currentIndex := (previousIndex + attempts) % n }
    if afterLoop.currentIndex ≠ previousIndex then
      ({ afterLoop with lastSwitchTime := now }, true)
    else (afterLoop, false)

/-- markCookieFailed (README.md lines 211-236): increments the failure count
of the current cookie and records the failure time; at three or more
failures the cookie joins the permanently-failed set; if less than
switchDelay has elapsed since the last switch, NO switch happens and the
residual wait switchDelay minus elapsed is returned; otherwise
switchToNextCookie runs and 0 is returned. Without a current cookie the call
returns without a wait value. -/
def markCookieFailed (st : CookieManagerState) (now : Int) :
    CookieManagerState × Option Int :=
  if st.currentIndex < st.cookies.length then
    let cookieId := st.currentIndex
    let failureCount := mapGetD st.cookieFailureCount cookieId 0 + 1
    let st1 := { st with
      cookieFailureCount := mapSet st.cookieFailureCount cookieId failureCount
      cookieFailureTime := mapSet st.cookieFailureTime cookieId now }
    let st2 :=
      if 3 ≤ failureCount then
        { st1 with failedCookies := setAdd st1.failedCookies cookieId }
      else st1
    let timeSinceLastSwitch := now - st.lastSwitchTime
    if timeSinceLastSwitch < st.switchDelay then
      (st2, some (st.switchDelay - timeSinceLastSwitch))
    else
      ((switchToNextCookie st2 now).1, some 0)
  else (st, none)

/-! ## Concrete instances used by the theorems below -/

/-- jobC1 is a pending immediate job for the user alice. -/
def jobC1 : Job :=
  { id := "alice-1000", username := "alice", customTrackingId := none,
    userId := none, addedAt := 1000, immediate := true, completed := false }

/-- queueStateC1: an idle queue holding only jobC1 with its pending promise. -/
def queueStateC1 : QueueState :=
  { jobs := [jobC1], isProcessing := false, lastJobTime := 0,
    consecutiveRateLimitErrors := 0, lastRateLimitErrorTime := 0,
    promises := [("alice-1000", PromiseState.pending)] }

/-- rateLimitErrorMsg is the message thrown by the scraper on a 429
(instagram.js line 161). -/
def rateLimitErrorMsg : String :=
  "Instagram rate limit (429): Too many requests. Please wait before trying again."

/-- jobC9 is a pending non-immediate job for the user bob. -/
def jobC9 : Job :=
  { id := "bob-500", username := "bob", customTrackingId := none,
    userId := none, addedAt := 500, immediate := false, completed := false }

/-- queueStateC9: a queue holding only jobC9 with its pending promise. -/
def queueStateC9 : QueueState :=
  { jobs := [jobC9], isProcessing := false, lastJobTime := 0,
    consecutiveRateLimitErrors := 0, lastRateLimitErrorTime := 0,
    promises := [("bob-500", PromiseState.pending)] }

/-- stWithinDelay: two healthy cookies; the last switch happened 30 s before
the failure below, within the 60 s switch delay. -/
def stWithinDelay : CookieManagerState :=
  { cookies := ["cookieA", "cookieB"], currentIndex := 0, failedCookies := [],
    cookieFailureCount := [], cookieFailureTime := [], lastSwitchTime := 100000,
    switchDelay := 60000 }

/-- stOthersFailed: two cookies; the non-current one is permanently failed
with three recorded failures. -/
def stOthersFailed : CookieManagerState :=
  { cookies := ["cookieA", "cookieB"], currentIndex := 0, failedCookies := [1],
    cookieFailureCount := [(0, 2), (1, 3)],
    cookieFailureTime := [(0, 50), (1, 60)], lastSwitchTime := 0,
    switchDelay := 60000 }

/-- pipelineEnvC3: every step succeeds except the delta insert of step 6;
a baseline snapshot exists. -/
def pipelineEnvC3 : PipelineEnv :=
  { fetchOk := true, profileOk := true, snapshotsFetchOk := true,
    snapshotInsertOk := true, lastSnapshotIdOk := true, hasBaseline := true,
    deltaInsertOk := false, enumerationOk := true, reelPersistOk := true,
    dailyOk := true, profileId := 7, snapshotId := 42 }

/-- pipelineEnvOk: every step succeeds. -/
def pipelineEnvOk : PipelineEnv :=
  { fetchOk := true, profileOk := true, snapshotsFetchOk := true,
    snapshotInsertOk := true, lastSnapshotIdOk := true, hasBaseline := true,
    deltaInsertOk := true, enumerationOk := true, reelPersistOk := true,
    dailyOk := true, profileId := 7, snapshotId := 42 }

/-- dayRowOld is a daily row of an earlier session day (day 10) whose close
is 50; there is no row for day 11. -/
def dayRowOld : DailyRow :=
  { profileId := 1, date := 10, followersOpen := 40, followersClose := 50,
    followersDelta := 10, followingOpen := 1, followingClose := 1,
    followingDelta := 0, mediaOpen := 2, mediaClose := 2, mediaDelta := 0,
    postsDelta := 0, clipsOpen := 1, clipsClose := 1, clipsDelta := 0,
    viewsDelta := 0, likesDelta := 0, commentsDelta := 0, createdAt := 864000 }

/-- snapC5 is the current snapshot on day 12 with 80 followers. -/
def snapC5 : Snapshot :=
  { id := 5, profileId := 1, capturedAt := 1036800, followers := 80,
    following := 3, mediaCount := 4, clipsCount := 2 }

/-- dayRowC7 is a daily row for today whose stored following open value is 0. -/
def dayRowC7 : DailyRow :=
  { profileId := 2, date := 20, followersOpen := 100, followersClose := 100,
    followersDelta := 0, followingOpen := 0, followingClose := 0,
    followingDelta := 0, mediaOpen := 7, mediaClose := 7, mediaDelta := 0,
    postsDelta := 0, clipsOpen := 1, clipsClose := 1, clipsDelta := 0,
    viewsDelta := 0, likesDelta := 0, commentsDelta := 0, createdAt := 1728000 }

/-- snapC7 is the current snapshot with 5 following. -/
def snapC7 : Snapshot :=
  { id := 9, profileId := 2, capturedAt := 1729000, followers := 120,
    following := 5, mediaCount := 7, clipsCount := 1 }

/-- dailyRowC8 is a daily row for day 1 created at midnight (86400 s), one
hour before the session start below. -/
def dailyRowC8 : DailyRow :=
  { profileId := 1, date := 1, followersOpen := 10, followersClose := 10,
    followersDelta := 0, followingOpen := 1, followingClose := 1,
    followingDelta := 0, mediaOpen := 1, mediaClose := 1, mediaDelta := 0,
    postsDelta := 0, clipsOpen := 0, clipsClose := 0, clipsDelta := 0,
    viewsDelta := 0, likesDelta := 0, commentsDelta := 0, createdAt := 86400 }

/-- snapC8 is a snapshot captured just after the session start at 90000 s. -/
def snapC8 : Snapshot :=
  { id := 1, profileId := 1, capturedAt := 90005, followers := 10,
    following := 2, mediaCount := 3, clipsCount := 1 }

/-- deltaC8 is a delta row created just after the session start. -/
def deltaC8 : DeltaRow :=
  { id := 1, profileId := 1, baseSnapshotId := 0, compareSnapshotId := 1,
    followersDiff := 0, followingDiff := 0, mediaDiff := 0, clipsDiff := 0,
    createdAt := 90010 }

/-- otherProfile is a profile row of a different username that already holds
the tracking id the caller supplies below. -/
def otherProfile : ProfileRow :=
  { id := 3, username := "carol", trackingId := "deadbeefdeadbeef",
    userId := some "u1" }

/-- bytesC10 is an arbitrary eight-byte entropy source. -/
def bytesC10 : List Nat := [1, 2, 3, 4, 5, 6, 7, 255]

/-! ## Helper lemmas -/

theorem mem_insertLe (le : α → α → Bool) (x a : α) (l : List α) :
    a ∈ insertLe le x l ↔ a = x ∨ a ∈ l := by
  induction l with
  | nil => simp [insertLe]
  | cons y ys ih =>
    simp only [insertLe]
    by_cases h : le y x
    · simp only [if_pos h, List.mem_cons, ih]
      tauto
    · simp only [if_neg h, List.mem_cons]

theorem mem_sortLe (le : α → α → Bool) (a : α) (l : List α) :
    a ∈ sortLe le l ↔ a ∈ l := by
  induction l with
  | nil => simp [sortLe]
  | cons x xs ih => simp [sortLe, mem_insertLe, ih]

theorem head?_mem (l : List α) (a : α) (h : l.head? = some a) : a ∈ l := by
  cases l with
  | nil => simp at h
  | cons x xs =>
    simp only [List.head?_cons, Option.some.injEq] at h
    simp [h.symm]

theorem jsOr_zero (a : Int) : jsOr a 0 = a := by
  by_cases h : a = 0 <;> simp [jsOr, h]

theorem find?_mapSet_self (m : List (Nat × β)) (k : Nat) (v : β) :
    (mapSet m k v).find? (fun p => p.1 == k) = some (k, v) := by
  induction m with
  | nil => simp [mapSet]
  | cons p rest ih =>
    by_cases hp : p.1 = k
    · simp [mapSet, hp]
    · simp only [mapSet, beq_iff_eq, hp, if_false]
      rw [List.find?_cons_of_neg _ (by simp [hp])]
      exact ih

theorem find?_mapSet_other (m : List (Nat × β)) (k i : Nat) (v : β)
    (h : i ≠ k) :
    (mapSet m k v).find? (fun p => p.1 == i) = m.find? (fun p => p.1 == i) := by
  induction m with
  | nil =>
    simp only [mapSet]
    rw [List.find?_cons_of_neg _ (by simp [Ne.symm h])]
  | cons p rest ih =>
    by_cases hp : p.1 = k
    · simp only [mapSet, beq_iff_eq, hp, if_true]
      rw [List.find?_cons_of_neg _ (by simp [Ne.symm h]),
        List.find?_cons_of_neg _ (by simp [hp, Ne.symm h])]
    · simp only [mapSet, beq_iff_eq, hp, if_false]
      by_cases hpi : p.1 = i
      · rw [List.find?_cons_of_pos _ (by simp [hpi]),
          List.find?_cons_of_pos _ (by simp [hpi])]
      · rw [List.find?_cons_of_neg _ (by simp [hpi]),
          List.find?_cons_of_neg _ (by simp [hpi])]
        exact ih

theorem mapGetD_mapSet_self (m : List (Nat × β)) (k : Nat) (v d : β) :
    mapGetD (mapSet m k v) k d = v := by
  simp [mapGetD, find?_mapSet_self]

theorem mapGetD_mapSet_other (m : List (Nat × β)) (k i : Nat) (v : β) (d : β)
    (h : i ≠ k) :
    mapGetD (mapSet m k v) i d = mapGetD m i d := by
  simp [mapGetD, find?_mapSet_other m k i v h]

theorem setAdd_contains_self (s : List Nat) (k : Nat) :
    (setAdd s k).contains k = true := by
  by_cases h : s.contains k = true
  · simp only [setAdd, if_pos h]
    exact h
  · simp only [setAdd, if_neg h]
    simp

/-! ## Claim theorems -/

/-- C1: the claim says a job that fails with a rate-limit error is re-queued
and retried until a terminal outcome settles its promise. The code does reset
completed to false and leaves the promise pending, but the finally block of
processQueue also runs on the early return of the rate-limit catch branch and
removes the job from the queue by id, so the job is never dispatched again
and its promise can never settle. This theorem evaluates the embedded
processQueue at the failing input: one pending job whose trackProfile throws
a rate-limit error; afterwards the queue is empty and the promise is still
pending. -/
theorem c1_rate_limited_job_dropped :
    (processQueueStep MIN_TIME_BETWEEN_JOBS queueStateC1 2000
        (TrackOutcome.failure rateLimitErrorMsg)).jobs = [] ∧
    lookupPromise (processQueueStep MIN_TIME_BETWEEN_JOBS queueStateC1 2000
        (TrackOutcome.failure rateLimitErrorMsg)).promises "alice-1000" =
      some PromiseState.pending ∧
    (processQueueStep MIN_TIME_BETWEEN_JOBS queueStateC1 2000
        (TrackOutcome.failure rateLimitErrorMsg)).consecutiveRateLimitErrors = 1 := by
  decide

/-- C3 counterexample: a run in which steps 1, 2 and 4 all succeed but the
delta write of step 6 fails (with a baseline present) aborts with a thrown
error instead of skipping the step, contradicting the claim that only steps
1, 2 and 4 abort the pipeline. -/
theorem c3_delta_failure_aborts :
    trackProfileResult pipelineEnvC3 = Except.error "Delta insert failed" ∧
    pipelineEnvC3.fetchOk = true ∧ pipelineEnvC3.profileOk = true ∧
    pipelineEnvC3.snapshotInsertOk = true :=
  ⟨rfl, rfl, rfl, rfl⟩

/-- C3 (amended): a trackProfile run completes and returns the profile and
the new snapshot exactly when step 1 (fetch), step 2 (profile upsert), step 4
(snapshot insert) succeed AND, whenever a baseline snapshot exists, the step
6 delta insert succeeds as well; failures of steps 3, 5, 7, 8, 9 and 10 never
abort the run. -/
theorem c3_failure_policy (env : PipelineEnv) :
    trackProfileResult env = Except.ok (env.profileId, env.snapshotId) ↔
      (env.fetchOk = true ∧ env.profileOk = true ∧ env.snapshotInsertOk = true ∧
        (env.hasBaseline = true → env.deltaInsertOk = true)) := by
  rcases env with ⟨f, p, sf, si, ls, hb, di, en, rp, da, pid, sid⟩
  cases f <;> cases p <;> cases si <;> cases hb <;> cases di <;>
    simp [trackProfileResult]

/-- c3_failure_policy_witness instantiates the amended C3 theorem at the
all-steps-succeed environment. -/
theorem c3_failure_policy_witness :
    trackProfileResult pipelineEnvOk = Except.ok (7, 42) :=
  (c3_failure_policy pipelineEnvOk).mpr (by decide)

/-- C4 counterexample: with three consecutive rate-limit errors whose most
recent one is two hours old, the code still applies the stale backoff to the
current gap, requiring 1800000 ms, while the claim (counter reset to zero
BEFORE the backoff is applied) predicts the base spacing 300000 ms; the claim
formula with the reset counter does not match the computed gap. -/
theorem c4_reset_after_gap_counterexample :
    backoffBaseWait 300000 3 0 7200000 = (1800000, 0) ∧
    ¬((backoffBaseWait 300000 3 0 7200000).1 =
        min (max 300000 (300000 * (2 : Int) ^ (0 : Nat))) MAX_BACKOFF_TIME) := by
  decide

/-- C4 (amended): whenever the dispatcher considers the next job after k
consecutive rate-limited outcomes, the required gap equals
max(baseSpacing, baseSpacing times 2 to the k) clamped to MAX_BACKOFF using
the PRE-reset counter k; when at least one hour has elapsed since the most
recent rate-limit error the counter is reset to zero, but only after the gap
has been computed, so the reset affects subsequent dispatches only. -/
theorem c4_backoff_gap (minTime : Int) (consecutive : Nat) (te now : Int)
    (h : minTime ≤ MAX_BACKOFF_TIME) :
    backoffBaseWait minTime consecutive te now =
      (min (max minTime (minTime * (2 : Int) ^ consecutive)) MAX_BACKOFF_TIME,
        if now - te < ONE_HOUR_MS then consecutive else 0) := by
  have hdist : max minTime (min (minTime * (2 : Int) ^ consecutive) MAX_BACKOFF_TIME)
      = min (max minTime (minTime * (2 : Int) ^ consecutive)) MAX_BACKOFF_TIME := by
    rw [max_min_distrib_left, max_eq_right h]
  rcases Nat.eq_zero_or_pos consecutive with h0 | hpos
  · subst h0
    simp [backoffBaseWait, pow_zero, mul_one, min_eq_left h, max_self, ite_self]
  · by_cases hlt : now - te < ONE_HOUR_MS <;>
      simp [backoffBaseWait, hpos, hlt, hdist]

/-- c4_backoff_gap_witness instantiates the amended C4 theorem at the default
spacing with three consecutive errors inside the one-hour window. -/
theorem c4_backoff_gap_witness :
    (300000 : Int) ≤ MAX_BACKOFF_TIME ∧
    backoffBaseWait 300000 3 0 1000 =
      (min (max 300000 (300000 * (2 : Int) ^ (3 : Nat))) MAX_BACKOFF_TIME,
        if (1000 : Int) - 0 < ONE_HOUR_MS then 3 else 0) :=
  ⟨by decide, c4_backoff_gap 300000 3 0 1000 (by decide)⟩

/-- C9: addJob with a non-completed job for the same target in the queue
returns that existing job (the identical promise) and appends nothing;
otherwise it appends a fresh job with a fresh pending promise and returns the
fresh job. -/
theorem c9_addJob_dedup (st : QueueState) (username : String) (immediate : Bool)
    (ct uid : Option String) (now : Int) :
    (∀ j, st.jobs.find? (fun j => j.username == username && !j.completed) = some j →
      addJob st username immediate ct uid now = (st, j.id)) ∧
    (st.jobs.find? (fun j => j.username == username && !j.completed) = none →
      addJob st username immediate ct uid now =
        ({ st with
            jobs := st.jobs ++ [newJobOf username immediate ct uid now]
            promises := st.promises ++
              [((newJobOf username immediate ct uid now).id, PromiseState.pending)] },
          (newJobOf username immediate ct uid now).id)) := by
  constructor
  · intro j hj
    unfold addJob
    rw [hj]
  · intro hn
    unfold addJob
    rw [hn]

/-- c9_addJob_dedup_witness instantiates the C9 theorem: adding bob while a
pending job for bob is queued returns the identical job and leaves the state
unchanged. -/
theorem c9_addJob_dedup_witness :
    queueStateC9.jobs.find? (fun j => j.username == "bob" && !j.completed) =
      some jobC9 ∧
    addJob queueStateC9 "bob" true none none 600 = (queueStateC9, "bob-500") := by
  refine ⟨by decide, ?_⟩
  exact (c9_addJob_dedup queueStateC9 "bob" true none none 600).1 jobC9 (by decide)

/-- C2 counterexample: two healthy cookies, the last switch 30 s ago. A
failure of the current cookie does NOT advance current (cookie 1 stays
current although cookie 2 is available), and the returned wait is the 30 s
residual, below the configured 60 s switch delay - contradicting the claim
that current is advanced to the next non-hard-failed credential and that the
returned wait is at least the switch delay. -/
theorem c2_markFailure_no_advance_counterexample :
    (markCookieFailed stWithinDelay 130000).1.currentIndex
        = stWithinDelay.currentIndex ∧
    (markCookieFailed stWithinDelay 130000).2 = some 30000 ∧
    stWithinDelay.failedCookies.contains 1 = false ∧
    ¬(stWithinDelay.switchDelay ≤ 30000) := by
  decide

/-- C2 (amended): markCookieFailed increments the failure count of the
current cookie by one, records the failure time, and marks the cookie
permanently failed at three failures. If less than switchDelay has elapsed
since the last switch, current is NOT advanced, no other count changes, and
the residual wait switchDelay minus elapsed (below the configured delay) is
returned; otherwise a switch to the next non-failed cookie runs and the
returned wait is 0 - and when every probed cookie is failed, the switch
clears EVERY cookie's failure count and failed mark and resets current to
the first cookie. -/
theorem c2_markCookieFailed_amended (st : CookieManagerState) (now : Int)
    (hcur : st.currentIndex < st.cookies.length) :
    (now - st.lastSwitchTime < st.switchDelay →
      (markCookieFailed st now).1.currentIndex = st.currentIndex ∧
      mapGetD (markCookieFailed st now).1.cookieFailureCount st.currentIndex 0
        = mapGetD st.cookieFailureCount st.currentIndex 0 + 1 ∧
      mapGetD (markCookieFailed st now).1.cookieFailureTime st.currentIndex 0
        = now ∧
      (∀ i, i ≠ st.currentIndex →
        mapGetD (markCookieFailed st now).1.cookieFailureCount i 0
          = mapGetD st.cookieFailureCount i 0) ∧
      ((markCookieFailed st now).1.failedCookies.contains st.currentIndex
        = (st.failedCookies.contains st.currentIndex ||
            decide (3 ≤ mapGetD st.cookieFailureCount st.currentIndex 0 + 1))) ∧
      (markCookieFailed st now).2
        = some (st.switchDelay - (now - st.lastSwitchTime))) ∧
    (¬(now - st.lastSwitchTime < st.switchDelay) →
      (markCookieFailed st now).2 = some 0) ∧
    (1 < st.cookies.length →
      switchStopOffset st.failedCookies st.cookies.length st.currentIndex
          = st.cookies.length →
      (switchToNextCookie st now).1.cookieFailureCount = [] ∧
      (switchToNextCookie st now).1.currentIndex = 0) := by
  refine ⟨?_, ?_, ?_⟩
  · intro hlt
    simp only [markCookieFailed, if_pos hcur, if_pos hlt]
    by_cases h3 : 3 ≤ mapGetD st.cookieFailureCount st.currentIndex 0 + 1
    · simp only [if_pos h3]
      refine ⟨?_, ?_, ?_, ?_, ?_, ?_⟩
      · trivial
      · exact mapGetD_mapSet_self st.cookieFailureCount st.currentIndex _ 0
      · exact mapGetD_mapSet_self st.cookieFailureTime st.currentIndex now 0
      · intro i hi
        exact mapGetD_mapSet_other st.cookieFailureCount st.currentIndex i _ 0 hi
      · rw [setAdd_contains_self]
        simp [h3]
      · trivial
    · simp only [if_neg h3]
      refine ⟨?_, ?_, ?_, ?_, ?_, ?_⟩
      · trivial
      · exact mapGetD_mapSet_self st.cookieFailureCount st.currentIndex _ 0
      · exact mapGetD_mapSet_self st.cookieFailureTime st.currentIndex now 0
      · intro i hi
        exact mapGetD_mapSet_other st.cookieFailureCount st.currentIndex i _ 0 hi
      · simp [h3]
      · trivial
  · intro hge
    simp only [markCookieFailed, if_pos hcur, if_neg hge]
  · intro hn hstop
    have hgt : ¬(st.cookies.length ≤ 1) := by omega
    simp only [switchToNextCookie, if_neg hgt, hstop, le_refl, if_pos]
    by_cases hne : (0 : Nat) ≠ st.currentIndex <;> simp [hne]

/-- c2_markCookieFailed_amended_witness instantiates the amended C2 theorem
on the within-delay state and on a state whose other cookie is failed (the
all-failed reset path of the switch). -/
theorem c2_markCookieFailed_amended_witness :
    ((130000 : Int) - stWithinDelay.lastSwitchTime < stWithinDelay.switchDelay) ∧
    (markCookieFailed stWithinDelay 130000).2
      = some (stWithinDelay.switchDelay
          - ((130000 : Int) - stWithinDelay.lastSwitchTime)) ∧
    (switchToNextCookie stOthersFailed 70000).1.cookieFailureCount = [] ∧
    (switchToNextCookie stOthersFailed 70000).1.currentIndex = 0 := by
  have h1 := c2_markCookieFailed_amended stWithinDelay 130000 (by decide)
  have h2 := c2_markCookieFailed_amended stOthersFailed 70000 (by decide)
  exact ⟨by decide, (h1.1 (by decide)).2.2.2.2.2,
    (h2.2.2 (by decide) (by decide)).1, (h2.2.2 (by decide) (by decide)).2⟩

/-- C5 counterexample: the session started on day 10 and has a daily row for
day 10 closing at 50 followers; today is day 12, there is no row for day 11,
and the current value is 80. The inserted row for day 12 opens at 80 (the
current value), not at the latest known close 50 as the claim requires. -/
theorem c5_open_not_latest_close_counterexample :
    (dailyInsertRow [dayRowOld] 1 12 10 11 true snapC5 0 0 0 1036800).followersOpen = 80 ∧
    latestKnownCloseSpec [dayRowOld] 1 = some 50 ∧
    ((80 : Int) ≠ 50) := by
  decide

/-- C5 (amended): when no daily row exists for today, the inserted row is
determined as follows, uniformly for followers, following, media and clips
(close is always the current snapshot value, the reel aggregates are the run
totals). If this is the first tracking (today equals the session start date,
or no baseline snapshot exists), open = close = current and delta = 0,
regardless of any older rows. Otherwise, if a row for yesterday exists in
the session, the followers open is exactly yesterday's close (delta =
current minus that close), while for following, media and clips the
JavaScript || fallback substitutes the CURRENT value for a zero yesterday
close, so their open is (yesterday close if non-zero, else current) and the
delta is current minus that open. If no yesterday row exists, every open is
the current value and every delta 0 - the latest known close of older rows
is never consulted. -/
theorem c5_daily_insert_open (table : List DailyRow) (pid : Nat)
    (today start yesterday : Int) (hasLast : Bool) (snap : Snapshot)
    (tv tl tc now : Int) :
    (dailyInsertRow table pid today start yesterday hasLast snap tv tl tc now).profileId
        = pid ∧
    (dailyInsertRow table pid today start yesterday hasLast snap tv tl tc now).date
        = today ∧
    (dailyInsertRow table pid today start yesterday hasLast snap tv tl tc now).followersClose
        = snap.followers ∧
    (dailyInsertRow table pid today start yesterday hasLast snap tv tl tc now).followingClose
        = snap.following ∧
    (dailyInsertRow table pid today start yesterday hasLast snap tv tl tc now).mediaClose
        = snap.mediaCount ∧
    (dailyInsertRow table pid today start yesterday hasLast snap tv tl tc now).clipsClose
        = snap.clipsCount ∧
    (dailyInsertRow table pid today start yesterday hasLast snap tv tl tc now).viewsDelta
        = tv ∧
    (dailyInsertRow table pid today start yesterday hasLast snap tv tl tc now).likesDelta
        = tl ∧
    (dailyInsertRow table pid today start yesterday hasLast snap tv tl tc now).commentsDelta
        = tc ∧
    ((today == start || !hasLast) = true →
      (dailyInsertRow table pid today start yesterday hasLast snap tv tl tc now).followersOpen
          = snap.followers ∧
      (dailyInsertRow table pid today start yesterday hasLast snap tv tl tc now).followersDelta
          = 0 ∧
      (dailyInsertRow table pid today start yesterday hasLast snap tv tl tc now).followingOpen
          = snap.following ∧
      (dailyInsertRow table pid today start yesterday hasLast snap tv tl tc now).followingDelta
          = 0 ∧
      (dailyInsertRow table pid today start yesterday hasLast snap tv tl tc now).mediaOpen
          = snap.mediaCount ∧
      (dailyInsertRow table pid today start yesterday hasLast snap tv tl tc now).mediaDelta
          = 0 ∧
      (dailyInsertRow table pid today start yesterday hasLast snap tv tl tc now).clipsOpen
          = snap.clipsCount ∧
      (dailyInsertRow table pid today start yesterday hasLast snap tv tl tc now).clipsDelta
          = 0) ∧
    ((today == start || !hasLast) = false →
      (∀ y, fetchYesterdayRow table pid yesterday start = some y →
        (dailyInsertRow table pid today start yesterday hasLast snap tv tl tc now).followersOpen
            = y.followersClose ∧
        (dailyInsertRow table pid today start yesterday hasLast snap tv tl tc now).followersDelta
            = snap.followers - y.followersClose ∧
        (dailyInsertRow table pid today start yesterday hasLast snap tv tl tc now).followingOpen
            = jsOr y.followingClose snap.following ∧
        (dailyInsertRow table pid today start yesterday hasLast snap tv tl tc now).followingDelta
            = snap.following - jsOr y.followingClose snap.following ∧
        (dailyInsertRow table pid today start yesterday hasLast snap tv tl tc now).mediaOpen
            = jsOr y.mediaClose snap.mediaCount ∧
        (dailyInsertRow table pid today start yesterday hasLast snap tv tl tc now).mediaDelta
            = snap.mediaCount - jsOr y.mediaClose snap.mediaCount ∧
        (dailyInsertRow table pid today start yesterday hasLast snap tv tl tc now).clipsOpen
            = jsOr y.clipsClose snap.clipsCount ∧
        (dailyInsertRow table pid today start yesterday hasLast snap tv tl tc now).clipsDelta
            = snap.clipsCount - jsOr y.clipsClose snap.clipsCount) ∧
      (fetchYesterdayRow table pid yesterday start = none →
        (dailyInsertRow table pid today start yesterday hasLast snap tv tl tc now).followersOpen
            = snap.followers ∧
        (dailyInsertRow table pid today start yesterday hasLast snap tv tl tc now).followersDelta
            = 0 ∧
        (dailyInsertRow table pid today start yesterday hasLast snap tv tl tc now).followingOpen
            = snap.following ∧
        (dailyInsertRow table pid today start yesterday hasLast snap tv tl tc now).followingDelta
            = 0 ∧
        (dailyInsertRow table pid today start yesterday hasLast snap tv tl tc now).mediaOpen
            = snap.mediaCount ∧
        (dailyInsertRow table pid today start yesterday hasLast snap tv tl tc now).mediaDelta
            = 0 ∧
        (dailyInsertRow table pid today start yesterday hasLast snap tv tl tc now).clipsOpen
            = snap.clipsCount ∧
        (dailyInsertRow table pid today start yesterday hasLast snap tv tl tc now).clipsDelta
            = 0)) := by
  refine ⟨rfl, rfl, rfl, ?_, ?_, ?_, rfl, rfl, rfl, ?_, ?_⟩
  · simp [dailyInsertRow, jsOr_zero]
  · simp [dailyInsertRow, jsOr_zero]
  · simp [dailyInsertRow, jsOr_zero]
  · intro h
    refine ⟨?_, ?_, ?_, ?_, ?_, ?_, ?_, ?_⟩ <;>
      simp [dailyInsertRow, h, jsOrO, jsOr_zero]
  · intro h
    constructor
    · intro y hy
      refine ⟨?_, ?_, ?_, ?_, ?_, ?_, ?_, ?_⟩ <;>
        simp [dailyInsertRow, h, hy, jsOrO, jsOr_zero] <;>
        simp [jsOr]
    · intro hn
      refine ⟨?_, ?_, ?_, ?_, ?_, ?_, ?_, ?_⟩ <;>
        simp [dailyInsertRow, h, hn, jsOrO, jsOr_zero]

/-- c5_daily_insert_open_witness instantiates the amended C5 theorem at the
first-tracking case. -/
theorem c5_daily_insert_open_witness :
    (((12 : Int) == 12 || !true) = true) ∧
    (dailyInsertRow [] 1 12 12 11 true snapC5 0 0 0 99).followersOpen
        = snapC5.followers ∧
    (dailyInsertRow [] 1 12 12 11 true snapC5 0 0 0 99).followingOpen
        = snapC5.following ∧
    (dailyInsertRow [] 1 12 12 11 true snapC5 0 0 0 99).followingDelta = 0 := by
  have hb := (c5_daily_insert_open [] (1 : Nat) 12 12 11 true snapC5
    0 0 0 99).2.2.2.2.2.2.2.2.2.1 (by decide)
  exact ⟨by decide, hb.1, hb.2.2.1, hb.2.2.2.1⟩

/-- C6: the baseline is null when the caller supplied a tracking id;
otherwise it is the second most recent stored snapshot when present, else the
only stored one, else null; and a delta row is written exactly when the
baseline is non-null (zero differences included, since the write does not
inspect the values). -/
theorem c6_baseline_and_delta (customTrackingId : Option String)
    (table : List Snapshot) (pid deltaId : Nat) (newSnapshot : Snapshot)
    (now : Int) :
    (selectBaseline customTrackingId table pid =
      if customTrackingId.isSome then none
      else Option.orElse ((getRecentTwoSnapshots table pid).get? 1)
        (fun _ => (getRecentTwoSnapshots table pid).get? 0)) ∧
    ((deltaRowWritten deltaId pid (selectBaseline customTrackingId table pid)
        newSnapshot now).isSome ↔
      (selectBaseline customTrackingId table pid).isSome) := by
  constructor
  · cases customTrackingId with
    | some t => simp [selectBaseline]
    | none =>
      cases hl : getRecentTwoSnapshots table pid with
      | nil => simp [selectBaseline, hl]
      | cons a rest =>
        cases rest with
        | nil => simp [selectBaseline, hl, Option.orElse]
        | cons b rest2 => simp [selectBaseline, hl, Option.orElse]
  · unfold deltaRowWritten
    cases selectBaseline customTrackingId table pid <;> simp

/-- C7 counterexample: updating the existing daily row for today whose stored
following open value is 0 while the current following count is 5 records a
following delta of 0, not current minus stored open = 5, because the
JavaScript || fallback treats the stored 0 as absent. -/
theorem c7_delta_with_zero_open_counterexample :
    (dailyUpdatePayload dayRowC7 snapC7 0 0 0).followingDelta = 0 ∧
    snapC7.following - dayRowC7.followingOpen = 5 ∧
    ((0 : Int) ≠ 5) := by
  decide

/-- C7 (amended): the daily update touches exactly the rows matching
(profile, today): every other row is carried over unchanged. On the matching
row, no open field is overwritten, the followers close is set to the current
value and the followers delta to current minus the stored open; for the other
metrics the delta uses a stored open of zero or the || fallback as current
(giving delta 0 in that edge case). -/
theorem c7_daily_update_today_only (table : List DailyRow) (pid : Nat)
    (today : Int) (snap : Snapshot) (tv tl tc : Int) (r : DailyRow)
    (hr : r ∈ table) :
    (¬(r.profileId = pid ∧ r.date = today) →
      r ∈ updateDailyMetricsToday table pid today snap tv tl tc) ∧
    (r.profileId = pid → r.date = today →
      dailyUpdatePayload r snap tv tl tc ∈
        updateDailyMetricsToday table pid today snap tv tl tc) ∧
    (dailyUpdatePayload r snap tv tl tc).followersOpen = r.followersOpen ∧
    (dailyUpdatePayload r snap tv tl tc).followingOpen = r.followingOpen ∧
    (dailyUpdatePayload r snap tv tl tc).mediaOpen = r.mediaOpen ∧
    (dailyUpdatePayload r snap tv tl tc).clipsOpen = r.clipsOpen ∧
    (dailyUpdatePayload r snap tv tl tc).date = r.date ∧
    (dailyUpdatePayload r snap tv tl tc).profileId = r.profileId ∧
    (dailyUpdatePayload r snap tv tl tc).followersClose = snap.followers ∧
    (dailyUpdatePayload r snap tv tl tc).followersDelta
        = snap.followers - r.followersOpen ∧
    (dailyUpdatePayload r snap tv tl tc).followingDelta
        = jsOr snap.following 0 - jsOr r.followingOpen (jsOr snap.following 0) := by
  refine ⟨?_, ?_, rfl, rfl, rfl, rfl, rfl, rfl, rfl, rfl, rfl⟩
  · intro hne
    have hcond : (r.profileId == pid && r.date == today) = false := by
      cases hb : (r.profileId == pid && r.date == today) with
      | false => rfl
      | true =>
        exfalso
        simp only [Bool.and_eq_true, beq_iff_eq] at hb
        exact hne hb
    refine List.mem_map.mpr ⟨r, hr, ?_⟩
    simp [hcond]
  · intro h1 h2
    have hcond : (r.profileId == pid && r.date == today) = true := by
      simp [beq_iff_eq, h1, h2]
    refine List.mem_map.mpr ⟨r, hr, ?_⟩
    simp [hcond]

/-- c7_daily_update_today_only_witness instantiates the amended C7 theorem on
a singleton table whose row matches (profile, today). -/
theorem c7_daily_update_today_only_witness :
    dailyUpdatePayload dayRowC7 snapC7 0 0 0 ∈
      updateDailyMetricsToday [dayRowC7] 2 20 snapC7 0 0 0 ∧
    (dailyUpdatePayload dayRowC7 snapC7 0 0 0).followersOpen
        = dayRowC7.followersOpen := by
  have h := c7_daily_update_today_only [dayRowC7] 2 20 snapC7 0 0 0 dayRowC7
    (by simp)
  exact ⟨h.2.1 rfl rfl, h.2.2.1⟩

/-- C8 counterexample: the profile updated_at is 90000 s (one hour into day
1); a daily row for day 1 created at 86400 s (midnight, one hour before the
session start) is returned by the session-scoped read, because daily rows are
filtered at day granularity only. Its timestamp is a full hour before
updated_at, far outside an epsilon of about one second. -/
theorem c8_daily_row_before_session_counterexample :
    (sessionRead 90000 1 [] [] [dailyRowC8] 91000).daily = some dailyRowC8 ∧
    dailyRowC8.createdAt + 3600 = 90000 ∧
    ¬((90000 : Int) - 1 ≤ dailyRowC8.createdAt) := by
  decide

/-- C8 (amended): for the session-scoped read, every returned snapshot has
captured_at >= updated_at minus 1 s and every returned delta has created_at
>= updated_at minus 1 s; returned DailyMetric rows are only guaranteed to
have their DATE on or after the calendar date of updated_at minus 1 s (day
granularity), not their creation timestamp. -/
theorem c8_session_scoping (profileUpdatedAt : Int) (pid : Nat)
    (snapshots : List Snapshot) (deltas : List DeltaRow)
    (dailies : List DailyRow) (now : Int) :
    (∀ s, (sessionRead profileUpdatedAt pid snapshots deltas dailies now).snapshot
        = some s → profileUpdatedAt - 1 ≤ s.capturedAt) ∧
    (∀ d, (sessionRead profileUpdatedAt pid snapshots deltas dailies now).delta
        = some d → profileUpdatedAt - 1 ≤ d.createdAt) ∧
    (∀ r, (sessionRead profileUpdatedAt pid snapshots deltas dailies now).daily
        = some r → dateOf (profileUpdatedAt - 1) ≤ r.date) := by
  refine ⟨?_, ?_, ?_⟩
  · intro s hs
    have hs2 : (sortLe snapDescLE (snapshots.filter (fun s =>
        s.profileId == pid && decide (profileUpdatedAt - 1 ≤ s.capturedAt)))).head?
        = some s := hs
    have hmem := head?_mem _ _ hs2
    rw [mem_sortLe] at hmem
    have hp := (List.mem_filter.mp hmem).2
    simp only [Bool.and_eq_true, decide_eq_true_eq] at hp
    exact hp.2
  · intro d hd
    have hd2 : (sortLe deltaDescLE (deltas.filter (fun d =>
        d.profileId == pid && decide (profileUpdatedAt - 1 ≤ d.createdAt)))).head?
        = some d := hd
    have hmem := head?_mem _ _ hd2
    rw [mem_sortLe] at hmem
    have hp := (List.mem_filter.mp hmem).2
    simp only [Bool.and_eq_true, decide_eq_true_eq] at hp
    exact hp.2
  · intro r hr
    have hr2 : sessionDailyRead profileUpdatedAt pid dailies now = some r := hr
    simp only [sessionDailyRead] at hr2
    by_cases hcmp : dateOf (profileUpdatedAt - 1) ≤ dateOf now
    · rw [if_pos hcmp] at hr2
      cases hhead : (dailies.filter (fun r =>
          r.profileId == pid && r.date == dateOf now)).head? with
      | some r0 =>
        rw [hhead] at hr2
        simp only [Option.some.injEq] at hr2
        have hmem := head?_mem _ _ hhead
        have hp := (List.mem_filter.mp hmem).2
        simp only [Bool.and_eq_true, beq_iff_eq] at hp
        rw [← hr2, hp.2]
        exact hcmp
      | none =>
        rw [hhead] at hr2
        simp only [] at hr2
        have hmem := head?_mem _ _ hr2
        rw [mem_sortLe] at hmem
        have hp := (List.mem_filter.mp hmem).2
        simp only [Bool.and_eq_true, decide_eq_true_eq] at hp
        exact hp.2
    · rw [if_neg hcmp] at hr2
      simp only [] at hr2
      have hmem := head?_mem _ _ hr2
      rw [mem_sortLe] at hmem
      have hp := (List.mem_filter.mp hmem).2
      simp only [Bool.and_eq_true, decide_eq_true_eq] at hp
      exact hp.2

/-- c8_session_scoping_witness instantiates the amended C8 theorem on a
session whose returned snapshot was captured 5 s after the session start. -/
theorem c8_session_scoping_witness :
    (sessionRead 90000 1 [snapC8] [deltaC8] [dailyRowC8] 91000).snapshot
        = some snapC8 ∧
    (90000 : Int) - 1 ≤ snapC8.capturedAt := by
  refine ⟨by decide, ?_⟩
  exact (c8_session_scoping 90000 1 [snapC8] [deltaC8] [dailyRowC8] 91000).1
    snapC8 (by decide)

theorem hexDigit_isHex (n : Nat) (h : n < 16) : isHexChar (hexDigit n) = true := by
  interval_cases n <;> decide

theorem flatten_byteToHex_length (bs : List Nat) :
    ((bs.map byteToHex).flatten).length = 2 * bs.length := by
  induction bs with
  | nil => rfl
  | cons b rest ih =>
    simp only [List.map_cons, List.flatten_cons, List.length_append, ih,
      List.length_cons, byteToHex]
    simp
    omega

theorem generateTrackingId_length (bs : List Nat) :
    (generateTrackingId bs).length = 2 * bs.length :=
  flatten_byteToHex_length bs

theorem generateTrackingId_hex (bs : List Nat) :
    ∀ c ∈ (generateTrackingId bs).data, isHexChar c = true := by
  induction bs with
  | nil =>
    intro c hc
    simp [generateTrackingId] at hc
  | cons b rest ih =>
    intro c hc
    have hc2 : c ∈ byteToHex b ++ (rest.map byteToHex).flatten := hc
    rcases List.mem_append.mp hc2 with h1 | h2
    · simp only [byteToHex, List.mem_cons, List.not_mem_nil, or_false] at h1
      rcases h1 with h | h
      · rw [h]
        exact hexDigit_isHex _ (Nat.mod_lt _ (by norm_num))
      · rw [h]
        exact hexDigit_isHex _ (Nat.mod_lt _ (by norm_num))
    · exact ih c h2

/-- C10: when the caller-supplied tracking id already belongs to a profile
row with a different username, the id actually used is the freshly generated
one (sixteen lowercase hexadecimal characters from eight random bytes), and
after the profile write no row carries the tracking id the caller supplied
(provided the fresh id differs from it). -/
theorem c10_custom_id_regenerated (table : List ProfileRow)
    (customTrackingId scrapedUsername : String) (randomBytes : List Nat)
    (existingProfile : ProfileRow)
    (hfind : findByTrackingId table customTrackingId = some existingProfile)
    (hdiff : existingProfile.username ≠ scrapedUsername) :
    chooseTrackingId table customTrackingId scrapedUsername
        (generateTrackingId randomBytes) = generateTrackingId randomBytes ∧
    (randomBytes.length = 8 → (generateTrackingId randomBytes).length = 16) ∧
    (∀ c ∈ (generateTrackingId randomBytes).data, isHexChar c = true) ∧
    (generateTrackingId randomBytes ≠ customTrackingId →
      ∀ r ∈ updateByTrackingId table customTrackingId scrapedUsername
          (generateTrackingId randomBytes), r.trackingId ≠ customTrackingId) := by
  refine ⟨?_, ?_, generateTrackingId_hex randomBytes, ?_⟩
  · unfold chooseTrackingId
    rw [hfind]
    simp [hdiff]
  · intro h8
    rw [generateTrackingId_length, h8]
  · intro hne r hrmem
    rcases List.mem_map.mp hrmem with ⟨r0, hr0, hfr⟩
    by_cases hb : (r0.trackingId == customTrackingId) = true
    · rw [← hfr, if_pos hb]
      exact hne
    · rw [← hfr, if_neg hb]
      intro heq
      exact hb (by simp [beq_iff_eq, heq])

/-- c10_custom_id_regenerated_witness instantiates the C10 theorem: the
caller supplies the tracking id of a row whose username carol differs from
the scraped username alice. -/
theorem c10_custom_id_regenerated_witness :
    findByTrackingId [otherProfile] "deadbeefdeadbeef" = some otherProfile ∧
    chooseTrackingId [otherProfile] "deadbeefdeadbeef" "alice"
        (generateTrackingId bytesC10) = generateTrackingId bytesC10 ∧
    (generateTrackingId bytesC10).length = 16 := by
  have h := c10_custom_id_regenerated [otherProfile] "deadbeefdeadbeef" "alice"
    bytesC10 otherProfile (by decide) (by decide)
  exact ⟨by decide, h.1, h.2.1 (by decide)⟩

end NewApi
